import Mathlib

/-!
Verification development for the gateway shard state machine and voice
connection manager of the kiera.js-native library.

The definitions below are a shallow embedding of the JavaScript source:
`Shard` (src/unnamed/part_001) and `VoiceConnectionManager`
(src/src/voice/VoiceConnectionManager.js).  Stateful methods become pure
functions from a state record to a new state record paired with a list of
observable effects (WebSocket sends, emitted events, scheduled timers,
promise resolutions).  Timer callbacks (heartbeat interval, member-request
timeout, voice-join timeout) are modelled as explicit step functions that
are enabled exactly when the corresponding handle is live in the state.
`Math.random()` draws are threaded as explicit parameters, and wall-clock
reads (`Date.now()`) as an explicit `now` argument.
-/

set_option linter.unusedVariables false

namespace Kiera

/-- JSON-like payload values carried in gateway frames (`{op, d, s, t}`). -/
inductive J where
  | null
  | bool (b : Bool)
  | num (n : Int)
  | str (s : String)
  | arr (xs : List J)
  | obj (fields : List (String × J))
deriving Repr, BEq, Inhabited

/-- JavaScript truthiness of a payload value (used by `if(_data.token)`). -/
def J.truthy : J → Bool
  | .null => false
  | .bool b => b
  | .num n => n != 0
  | .str s => s != ""
  | .arr _ => true
  | .obj _ => true

/-- Field lookup on an object value; `none` on non-objects or missing keys. -/
def J.lookup (j : J) (key : String) : Option J :=
  match j with
  | .obj fields => fields.lookup key
  | _ => none

/-- Models `delete _data[key]`: removes the field from an object, no-op otherwise. -/
def J.removeField (j : J) (key : String) : J :=
  match j with
  | .obj fields => .obj (fields.filter (fun f => f.1 ≠ key))
  | other => other

/-- Gateway opcodes used by the shard (Constants.GatewayOPCodes).  The shard
dispatches on opcode identity; `event` is DISPATCH/op 0, `invalidSession`
is op 9, `hello` is op 10, `heartbeatAck` is op 11. -/
inductive GatewayOp where
  | event
  | heartbeat
  | identifyOp
  | statusUpdate
  | voiceStateUpdate
  | resumeOp
  | reconnect
  | getClubMembers
  | invalidSession
  | hello
  | heartbeatAck
  | syncClub
  | other (n : Nat)
deriving Repr, DecidableEq, Inhabited

/-- Value with which an outstanding member-request promise is resolved.
The source resolves either with the accumulated `members` array or, in
`Shard.reset`, with the numeric `received` field. -/
inductive ResolveVal where
  | memberList (ms : List String)
  | counter (n : Nat)
deriving Repr, DecidableEq, Inhabited

/-- Models `this.ws.readyState` of the underlying WebSocket. -/
inductive WSReadyState where
  | connecting
  | open
  | closing
  | closed
deriving Repr, DecidableEq, Inhabited

/-- Observable effects of a shard method: frames offered to `ws.send` via
`sendWS`, emitted events, timer scheduling, and promise resolutions. -/
inductive Effect where
  /-- Models `sendWS(op, d, priority)` reached the point of building and sending
  the frame `{op, d}` on the socket (the frame still holds the token). -/
  | send (op : GatewayOp) (d : J) (priority : Bool)
  /-- the `debug` trace of an outbound frame, emitted after the token field
  has been deleted from `_data`. -/
  | debugFrame (op : GatewayOp) (d : J)
  | debugMsg (m : String)
  | warnMsg (m : String)
  | errorEv (m : String)
  | disconnectEv
  | connectEv
  | helloEv
  | unknownEv
  | readyPacketCB
  | resumeEv
  | preReadyEv
  | wsClose (code : Nat)
  | wsTerminate
  /-- Models `this.client.shards.connect(this)` invoked immediately. -/
  | connectNow
  /-- Models `setTimeout(() => this.client.shards.connect(this), ms)`. -/
  | connectAfter (ms : Nat)
  /-- resolution of the promise registered under `nonce` in
  `requestMembersPromise` (promises in this code are only ever resolved,
  never rejected). -/
  | resolveMembers (nonce : String) (v : ResolveVal)
  /-- Models `clearTimeout` on the member request registered under `nonce`. -/
  | clearedMemberTimeout (nonce : String)
  /-- Models `setTimeout` arming the member-request timeout for `nonce`. -/
  | armedMemberTimeout (nonce : String) (ms : Nat)
  | memberChunkEv (clubID : String) (members : List String)
  | otherDispatch (t : String)
  /-- the `debug` dump emitted by `heartbeat` on a missed ACK, carrying the
  live values the source stringifies. -/
  | debugHBTimeout (lastReceived lastSent : Option Nat) (status : String) (timestamp : Nat)
  /-- the `debug` dump at the top of `_onWSClose`. -/
  | debugWSDisconnected (code : Nat) (reason : String) (status : String)
  /-- the `debug` line "Clean/Unclean WS close: ...". -/
  | debugWSCloseInfo (clean : Bool) (code : Nat) (reason : String)
  /-- Models `Shard#ready` emitted by `checkReady`. -/
  | shardReadyEv
  /-- The "shardPreReady" event emitted while processing READY. -/
  | shardPreReadyEv
deriving Repr, Inhabited

/-- One outstanding entry of `this.requestMembersPromise[nonce]`. -/
structure MemberReq where
  received : Nat
  members : List String
  timeoutActive : Bool
deriving Repr, DecidableEq, Inhabited

/-- Client options and environment facts the shard reads
(`this.client.options`, module availability, `process.platform`). -/
structure Config where
  token : String
  compress : Bool
  zlibAvailable : Bool
  largeThreshold : Nat
  clubSubscriptions : Bool
  intents : Option Int
  maxShards : Nat
  autoreconnect : Bool
  maxResumeAttempts : Nat
  requestTimeout : Nat
  connectionTimeout : Nat
  disableEvents : List String
  platform : String
  gatewayVersion : Nat
  /-- the outcome of one `Math.random()` draw, scaled to thousandths. -/
  rand1000 : Nat
  /-- Models `this.client.presence` copied into the shard by `hardReset`. -/
  clientPresenceStatus : Option String
  clientPresenceAfk : Bool
deriving Repr, DecidableEq, Inhabited

/-- Shard state (the fields of the `Shard` class the core state machine
reads and writes; entity caches are reduced to the sets of cached club
ids that the handlers consult). -/
structure Shard where
  id : Nat
  status : String
  seq : Nat
  sessionID : Option String
  lastHeartbeatAck : Bool
  lastHeartbeatSent : Option Nat
  lastHeartbeatReceived : Option Nat
  latency : Option Int
  connecting : Bool
  ready : Bool
  preReady : Bool
  connectAttempts : Nat
  reconnectInterval : Nat
  ws : Option WSReadyState
  /-- Models `some ms` when the `setInterval` heartbeat timer is live. -/
  heartbeatTimer : Option Nat
  connectTimeout : Bool
  requestMembersPromise : List (String × MemberReq)
  getAllUsersCount : List String
  clubs : List String
  unavailableClubs : List String
  presenceStatus : Option String
  presenceAfk : Bool
  clubCreateTimeout : Bool
deriving Repr, DecidableEq, Inhabited

/-- The `options.reconnect` argument of `Shard.disconnect`: absent, a
boolean, or the string `"auto"`. -/
inductive ReconnectOpt where
  | undef
  | flag (b : Bool)
  | auto
deriving Repr, DecidableEq, Inhabited

/-- JavaScript truthiness of `options.reconnect`. -/
def ReconnectOpt.truthy : ReconnectOpt → Bool
  | .undef => false
  | .flag b => b
  | .auto => true

/-- Replace the value bound to `k` in an association list. -/
def setAssoc {α : Type} (l : List (String × α)) (k : String) (v : α) : List (String × α) :=
  l.map (fun p => if p.1 = k then (k, v) else p)

/-- Models `Shard.sendWS(op, _data, priority)`: if the socket is open the frame
`{op, d: _data}` is serialized and sent, then — when `_data.token` is
truthy — the token field is deleted from `_data` before the `debug` trace
of the frame is emitted.  The token-bucket queueing delays execution but
is not otherwise observable, so it is elided here. -/
def sendWS (s : Shard) (op : GatewayOp) (d : J) (priority : Bool := false) : List Effect :=
  if s.ws = some .open then
    let traced := if (d.lookup "token").elim false J.truthy then d.removeField "token" else d
    [Effect.send op d priority, Effect.debugFrame op traced]
  else []

/-- Models `Shard.reset()`: resolves every outstanding member-request promise with
its `received` field (a counter the source initializes to 0 and never
increments), clears its timeout, and restores the per-connection fields.
The sync/getAllUsers batching queues are not modelled (they are empty
whenever the claims below apply). -/
def reset (s : Shard) : Shard × List Effect :=
  let promiseEffs := s.requestMembersPromise.flatMap (fun p =>
    [Effect.clearedMemberTimeout p.1, Effect.resolveMembers p.1 (.counter p.2.received)])
  ({ s with
      connecting := false
      ready := false
      preReady := false
      requestMembersPromise := []
      getAllUsersCount := []
      latency := none
      lastHeartbeatAck := true
      lastHeartbeatReceived := none
      lastHeartbeatSent := none
      status := "disconnected"
      connectTimeout := false },
   promiseEffs)

/-- Models `Shard.hardReset()`: a `reset` followed by clearing the session, the
sequence counter, the backoff interval and the socket, and re-copying the
client presence. -/
def hardReset (c : Config) (s : Shard) : Shard × List Effect :=
  let r := reset s
  ({ r.1 with
      seq := 0
      sessionID := none
      reconnectInterval := 1000
      connectAttempts := 0
      ws := none
      heartbeatTimer := none
      clubCreateTimeout := false
      presenceStatus := c.clientPresenceStatus
      presenceAfk := c.clientPresenceAfk },
   r.2)

/-- The socket close/terminate decision at the top of `Shard.disconnect`:
with the socket not yet closed, a truthy `options.reconnect` with a held
session closes with 4901 when open (terminates otherwise), anything else
closes with 1000. -/
def disconnectCloseEffs (readyState : WSReadyState) (reconnectTruthy sidSome : Bool) :
    List Effect :=
  if readyState ≠ .closed then
    if reconnectTruthy ∧ sidSome then
      if readyState = .open then [.wsClose 4901] else [.wsTerminate]
    else [.wsClose 1000]
  else []

/-- The reconnect decision at the end of `Shard.disconnect`: on
`reconnect: "auto"` with `autoreconnect` enabled, reconnect immediately
when a session is held, else after the backoff interval (which is then
multiplied by `Math.random()*2+1` rounded, capped at 30000); a falsy
`options.reconnect` hard-resets instead. -/
def disconnectTail (c : Config) (reconnectOpt : ReconnectOpt) (s₄ : Shard) :
    Shard × List Effect :=
  if reconnectOpt = .auto ∧ c.autoreconnect then
    match s₄.sessionID with
    | some _ =>
      (s₄, [.debugMsg ("Immediately reconnecting for potential resume | Attempt "
              ++ toString s₄.connectAttempts),
            .connectNow])
    | none =>
      let newInterval := min ((s₄.reconnectInterval * (2 * c.rand1000 + 1000) + 500) / 1000) 30000
      ({ s₄ with reconnectInterval := newInterval },
       [.debugMsg ("Queueing reconnect in " ++ toString s₄.reconnectInterval
            ++ "ms | Attempt " ++ toString s₄.connectAttempts),
        .connectAfter s₄.reconnectInterval])
  else if ¬ reconnectOpt.truthy then
    let h := hardReset c s₄
    (h.1, h.2)
  else
    (s₄, [])

/-- Models `Shard.disconnect(options, error)`.  Returns immediately when `this.ws`
is null; otherwise clears the heartbeat timer, closes/terminates the
socket as `disconnectCloseEffs` dictates, resets, emits the error (if
any) and the `disconnect` event, invalidates the session after too many
resume attempts, and finishes with the `disconnectTail` reconnect
decision. -/
def disconnect (c : Config) (s : Shard) (reconnectOpt : ReconnectOpt) (error : Option String) :
    Shard × List Effect :=
  match s.ws with
  | none => (s, [])
  | some readyState =>
    let s₁ := { s with heartbeatTimer := none }
    let closeEffs := disconnectCloseEffs readyState reconnectOpt.truthy s₁.sessionID.isSome
    let s₂ := { s₁ with ws := none }
    let r := reset s₂
    let s₃ := r.1
    let errEffs := match error with
      | some m => [Effect.errorEv m]
      | none => []
    let effs₁ := closeEffs ++ r.2 ++ errEffs ++ [.disconnectEv]
    let inv : Bool := s₃.sessionID.isSome && decide (s₃.connectAttempts ≥ c.maxResumeAttempts)
    let s₄ := if inv then { s₃ with sessionID := none } else s₃
    let effs₂ : List Effect :=
      if inv then
        [.debugMsg ("Automatically invalidating session due to excessive resume attempts | Attempt "
          ++ toString s₃.connectAttempts)]
      else []
    let t := disconnectTail c reconnectOpt s₄
    (t.1, effs₁ ++ effs₂ ++ t.2)

/-- Models `Shard.heartbeat(normal)`: suppressed entirely while resuming; a
periodic (`normal`) beat with the previous ACK still missing becomes a
zombie-connection disconnect with `reconnect: "auto"`; otherwise clears
the ACK flag (periodic beats only), stamps the send time and sends
`{op: HEARTBEAT, d: seq}` with priority. -/
def heartbeat (c : Config) (s : Shard) (normal : Bool) (now : Nat) : Shard × List Effect :=
  if s.status = "resuming" then (s, [])
  else if normal ∧ ¬ s.lastHeartbeatAck then
    let r := disconnect c s .auto
      (some "Server didn't acknowledge previous heartbeat, possible lost connection")
    (r.1, Effect.debugHBTimeout s.lastHeartbeatReceived s.lastHeartbeatSent s.status now :: r.2)
  else
    let s' := { s with
        lastHeartbeatAck := if normal then false else s.lastHeartbeatAck
        lastHeartbeatSent := some now }
    (s', sendWS s' .heartbeat (J.num s'.seq) true)

/-- The IDENTIFY `d` payload built by `Shard.identify` (field order as in
the source object literal; fields JSON serialization drops when undefined
are omitted; the presence `game` sub-value is abstracted to `null`). -/
def identifyPayload (c : Config) (s : Shard) : J :=
  J.obj ([("token", J.str c.token),
          ("v", J.num (c.gatewayVersion : Int)),
          ("compress", J.bool c.compress),
          ("large_threshold", J.num (c.largeThreshold : Int)),
          ("club_subscriptions", J.bool c.clubSubscriptions)]
    ++ (match c.intents with
        | some i => [("intents", J.num (i : Int))]
        | none => [])
    ++ [("properties", J.obj [("os", J.str c.platform),
                              ("browser", J.str "Helselia"),
                              ("device", J.str "Helselia")])]
    ++ (if c.maxShards > 1 then [("shard", J.arr [J.num (s.id : Int), J.num (c.maxShards : Int)])] else [])
    ++ (match s.presenceStatus with
        | some st =>
          if st ≠ "" then
            [("presence", J.obj [("game", J.null),
                                 ("status", J.str st),
                                 ("afk", J.bool s.presenceAfk)])]
          else []
        | none => []))

/-- Models `Shard.identify()`: errors out when compression is requested but no
zlib implementation loaded, else sends the IDENTIFY payload. -/
def identify (c : Config) (s : Shard) : Shard × List Effect :=
  if c.compress ∧ ¬ c.zlibAvailable then
    (s, [.errorEv "pako/zlib-sync not found, cannot decompress data"])
  else
    (s, sendWS s .identifyOp (identifyPayload c s))

/-- Models `Shard.resume()`: sets the status to `"resuming"` and sends RESUME
`{token, session_id, seq}`. -/
def resume (c : Config) (s : Shard) : Shard × List Effect :=
  let s' := { s with status := "resuming" }
  (s', sendWS s' .resumeOp (J.obj
    [("token", J.str c.token),
     ("session_id", match s'.sessionID with
       | some sid => J.str sid
       | none => J.null),
     ("seq", J.num (s'.seq : Int))]))

/-- The value of `Constants.Intents.clubMembers`.  Constants.js is not part
of the sources at hand; the concrete bit value (2, the standard
guild-members intent bit) is immaterial to every claim below — only
whether the band with it is zero matters, and the claims never exercise
the intent checks. -/
def clubMembersIntent : Nat := 2

/-- Options object accepted by `Shard.requestClubMembers`. -/
structure ReqMembersOpts where
  limit : Option Nat := none
  userIDs : Option (List String) := none
  query : Option String := none
  presences : Option Bool := none
  timeout : Option Nat := none
deriving Repr, DecidableEq, Inhabited

/-- JS truthiness of the (string) `query` option. -/
def queryTruthy : Option String → Bool
  | some q => q ≠ ""
  | none => false

/-- Models `Shard.requestClubMembers(clubID, options)`: validates the options,
sends `{op: GET_CLUB_MEMBERS, d: opts}`, and registers
`requestMembersPromise[nonce] = {res, received: 0, members: [],
timeout: setTimeout(..., options.timeout || requestTimeout)}`.  The nonce
(`Date.now().toString() + Math.random().toString(36)` in the source) is
passed explicitly.  Thrown errors become `Except.error`. -/
def requestClubMembers (c : Config) (s : Shard) (clubID : J)
    (options : Option ReqMembersOpts) (nonce : String) :
    Except String (Shard × List Effect) :=
  let limit : Nat := (options.bind (·.limit)).getD 0
  let userIDs := options.bind (·.userIDs)
  let query0 := options.bind (·.query)
  let query := if userIDs.isNone ∧ ¬ queryTruthy query0 then some "" else query0
  let intentsForbid : Bool := match c.intents with
    | some i => i != 0 && i.land clubMembersIntent == 0
    | none => false
  let tooManyIDs : Bool := match userIDs with
    | some l => decide (l.length > 100)
    | none => false
  if ¬ queryTruthy query ∧ intentsForbid then
    .error "Cannot request all members without clubMembers intent"
  else if tooManyIDs then
    .error "Cannot request more than 100 users by their ID"
  else
    let d := J.obj ([("club_id", clubID), ("limit", J.num (limit : Int))]
      ++ (match userIDs with
          | some l => [("user_ids", J.arr (l.map J.str))]
          | none => [])
      ++ (match query with
          | some q => [("query", J.str q)]
          | none => [])
      ++ [("nonce", J.str nonce)]
      ++ (match options.bind (·.presences) with
          | some b => [("presences", J.bool b)]
          | none => []))
    let tmo := (options.bind (·.timeout)).getD c.requestTimeout
    .ok ({ s with requestMembersPromise :=
            s.requestMembersPromise ++ [(nonce, { received := 0, members := [], timeoutActive := true })] },
      sendWS s .getClubMembers d ++ [.armedMemberTimeout nonce tmo])

/-- Firing of the timeout armed by `requestClubMembers` for `nonce`: the
promise is resolved with the members received so far and the entry is
deleted.  Enabled only while the entry (and hence the timer) is live. -/
def memberRequestTimeout (s : Shard) (nonce : String) : Shard × List Effect :=
  match s.requestMembersPromise.lookup nonce with
  | some req =>
    if req.timeoutActive then
      ({ s with requestMembersPromise := s.requestMembersPromise.filter (fun p => p.1 ≠ nonce) },
       [.resolveMembers nonce (.memberList req.members)])
    else (s, [])
  | none => (s, [])

/-- Models `Shard.checkReady()` restricted to the modelled state: the sync and
getAllUsers batching queues are unmodelled (empty), so the shard turns
ready exactly when no pending member-request count remains. -/
def checkReady (s : Shard) : Shard × List Effect :=
  if ¬ s.ready then
    if s.getAllUsersCount.isEmpty then
      ({ s with ready := true }, [.shardReadyEv])
    else (s, [])
  else (s, [])

/-- The `d` payload of a CLUB_MEMBERS_CHUNK dispatch (members reduced to
their ids; presences to the ids they decorate). -/
structure ChunkData where
  clubID : String
  members : List String
  nonce : String
  chunkIndex : Int
  chunkCount : Int
  presences : List String
deriving Repr, DecidableEq, Inhabited

/-- The final-chunk handling inside the CLUB_MEMBERS_CHUNK arm: clear the
timeout, resolve with the accumulated buffer and delete the entry (when
the nonce is live), then release the club from `getAllUsersCount` and
re-check readiness. -/
def chunkFinalize (s₁ : Shard) (d : ChunkData) : Shard × List Effect :=
  let rA : Shard × List Effect := match s₁.requestMembersPromise.lookup d.nonce with
    | some req =>
      ({ s₁ with requestMembersPromise :=
          s₁.requestMembersPromise.filter (fun p => p.1 ≠ d.nonce) },
       [Effect.clearedMemberTimeout d.nonce,
        Effect.resolveMembers d.nonce (.memberList req.members)])
    | none => (s₁, [])
  if rA.1.getAllUsersCount.contains d.clubID then
    let sB := { rA.1 with getAllUsersCount := rA.1.getAllUsersCount.filter (fun x => x ≠ d.clubID) }
    let rC := checkReady sB
    (rC.1, rA.2 ++ rC.2)
  else rA

/-- The CLUB_MEMBERS_CHUNK arm of `Shard.wsEvent`: drops the chunk with a
debug line when the club is not cached; otherwise appends the members to
the live request's buffer, finalizes when `chunk_index >= chunk_count - 1`,
then emits the chunk event and refreshes `lastHeartbeatAck`. -/
def clubMembersChunk (s : Shard) (d : ChunkData) : Shard × List Effect :=
  if ¬ s.clubs.contains d.clubID then
    (s, [.debugMsg ("Received CLUB_MEMBERS_CHUNK, but club " ++ d.clubID ++ " is "
          ++ (if s.unavailableClubs.contains d.clubID then "unavailable" else "missing"))])
  else
    let s₁ := match s.requestMembersPromise.lookup d.nonce with
      | some req =>
        { s with requestMembersPromise :=
            setAssoc s.requestMembersPromise d.nonce { req with members := req.members ++ d.members } }
      | none => s
    let r₂ : Shard × List Effect :=
      if d.chunkIndex ≥ d.chunkCount - 1 then chunkFinalize s₁ d
      else (s₁, [])
    ({ r₂.1 with lastHeartbeatAck := true },
     r₂.2 ++ [.memberChunkEv d.clubID d.members])

/-- The `d` field of an inbound gateway packet, restricted to the shapes
the modelled handlers inspect. -/
inductive PacketD where
  | empty
  | hello (heartbeatInterval : Int)
  /-- READY payload: `session_id` and the initial clubs as
  `(id, unavailable)` pairs (the remaining READY payload feeds the
  entity caches, which are outside this model). -/
  | ready (sessionId : String) (clubs : List (String × Bool))
  | chunk (cd : ChunkData)
  | flag (b : Bool)
deriving Repr, DecidableEq, Inhabited

/-- An inbound gateway packet `{op, d, s?, t?}`. -/
structure Packet where
  op : GatewayOp
  s : Option Nat := none
  t : Option String := none
  d : PacketD := .empty
deriving Repr, DecidableEq, Inhabited

/-- Models `Shard.restartClubCreateTimeout()` over the modelled state
(`unsyncedClubs` is 0 in the model). -/
def restartClubCreateTimeout (s : Shard) : Shard × List Effect :=
  let s₀ := { s with clubCreateTimeout := false }
  if ¬ s₀.ready then
    if s₀.unavailableClubs.isEmpty then checkReady s₀
    else ({ s₀ with clubCreateTimeout := true }, [])
  else (s₀, [])

/-- Models `Shard.wsEvent(packet)` restricted to the dispatch events the claims
exercise (READY, RESUMED, CLUB_MEMBERS_CHUNK).  Every other `t` — whether
the source updates entity caches for it or falls through to the `unknown`
emission — is abstracted into an opaque `otherDispatch` effect that
leaves the modelled shard state unchanged. -/
def wsEvent (c : Config) (s : Shard) (p : Packet) (now : Nat) : Shard × List Effect :=
  match p.t with
  | some "CLUB_MEMBERS_CHUNK" =>
    match p.d with
    | .chunk cd => clubMembersChunk s cd
    | _ => (s, [])
  | some "RESUMED" =>
    let s₁ := { s with
        connectAttempts := 0
        reconnectInterval := 1000
        connecting := false
        connectTimeout := false
        status := "ready"
        presenceStatus := some "online" }
    let r := heartbeat c s₁ false now
    ({ r.1 with preReady := true, ready := true },
     [Effect.readyPacketCB] ++ r.2 ++ [.resumeEv])
  | some "READY" =>
    let s₁ := { s with
        connectAttempts := 0
        reconnectInterval := 1000
        connecting := false
        connectTimeout := false
        status := "ready"
        presenceStatus := some "online" }
    match p.d with
    | .ready sid clubs =>
      let s₂ := { s₁ with sessionID := some sid }
      let s₃ := clubs.foldl (fun acc cl =>
          if cl.2 then
            { acc with
                clubs := acc.clubs.filter (fun x => x ≠ cl.1)
                unavailableClubs := acc.unavailableClubs ++ [cl.1] }
          else
            { acc with
                clubs := acc.clubs ++ [cl.1]
                unavailableClubs := acc.unavailableClubs.filter (fun x => x ≠ cl.1) }) s₂
      let s₄ := { s₃ with preReady := true }
      let r :=
        if ¬ s₄.unavailableClubs.isEmpty ∧ ¬ clubs.isEmpty then
          restartClubCreateTimeout s₄
        else checkReady s₄
      (r.1, [Effect.readyPacketCB, Effect.shardPreReadyEv] ++ r.2)
    | _ => (s₁, [Effect.readyPacketCB])
  | some t => (s, [.otherDispatch t])
  | none => (s, [.otherDispatch ""])

/-- Models `Shard.onPacket(packet)`: records a truthy `s` field (warning on a
skipped-ahead sequence while connected and not resuming), then dispatches
on the opcode: EVENT demultiplexes unless disabled; HEARTBEAT answers
immediately; INVALID_SESSION zeroes the sequence, clears the session and
re-identifies at once; RECONNECT disconnects with `reconnect: "auto"`;
HELLO (re)arms the heartbeat timer and either resumes (session held) or
identifies and sends one immediate heartbeat; HEARTBEAT_ACK sets the ACK
flag and the latency; anything else is emitted as `unknown`. -/
def onPacket (c : Config) (s : Shard) (p : Packet) (now : Nat) : Shard × List Effect :=
  let r₀ : Shard × List Effect :=
    match p.s with
    | some sv =>
      if sv ≠ 0 then
        let warnEffs :=
          if sv > s.seq + 1 ∧ s.ws.isSome ∧ s.status ≠ "resuming" then
            [Effect.warnMsg ("Non-consecutive sequence (" ++ toString s.seq
               ++ " -> " ++ toString sv ++ ")")]
          else []
        ({ s with seq := sv }, warnEffs)
      else (s, [])
    | none => (s, [])
  let s₀ := r₀.1
  let seqEffs := r₀.2
  match p.op with
  | .event =>
    let disabled := match p.t with
      | some t => c.disableEvents.contains t
      | none => false
    if disabled then (s₀, seqEffs)
    else
      let r₁ := wsEvent c s₀ p now
      (r₁.1, seqEffs ++ r₁.2)
  | .heartbeat =>
    let r₁ := heartbeat c s₀ false now
    (r₁.1, seqEffs ++ r₁.2)
  | .invalidSession =>
    let s₁ := { s₀ with seq := 0, sessionID := none }
    let r₂ := identify c s₁
    (r₂.1, seqEffs ++ [.warnMsg "Invalid session, reidentifying!"] ++ r₂.2)
  | .reconnect =>
    let r₁ := disconnect c s₀ .auto none
    (r₁.1, seqEffs ++ r₁.2)
  | .hello =>
    let s₁ := match p.d with
      | .hello hi => if hi > 0 then { s₀ with heartbeatTimer := some hi.toNat } else s₀
      | _ => s₀
    let s₂ := { s₁ with connecting := false, connectTimeout := false }
    let r₃ : Shard × List Effect :=
      if s₂.sessionID.isSome then resume c s₂
      else
        let rA := identify c s₂
        let rB := heartbeat c rA.1 false now
        (rB.1, rA.2 ++ rB.2)
    (r₃.1, seqEffs ++ r₃.2 ++ [.helloEv])
  | .heartbeatAck =>
    ({ s₀ with
        lastHeartbeatAck := true
        lastHeartbeatReceived := some now
        latency := some ((now : Int) - ((s₀.lastHeartbeatSent.getD 0 : Nat) : Int)) },
     seqEffs)
  | _ => (s₀, seqEffs ++ [.unknownEv])

/-- Models `Shard._onWSClose(code, reason)`: a debug dump, the close-code decision
table of §4.3 (mapping each code to an error, optional session/sequence
invalidation, and a reconnect decision — `"auto"` by default, `false` for
the fatal codes), the extra invalid-token error emission on 4004, and the
final `disconnect` call. -/
def onWSClose (c : Config) (s : Shard) (code : Nat) (reason : String) : Shard × List Effect :=
  let e0 := [Effect.debugWSDisconnected code reason s.status]
  let err0 : Option String :=
    if code = 0 ∨ code = 1000 then none else some (toString code ++ ": " ++ reason)
  if code ≠ 0 then
    let e1 := [Effect.debugWSCloseInfo (code = 1000) code reason]
    let (err, s', reconnectOpt, extra) :
        Option String × Shard × ReconnectOpt × List Effect :=
      if code = 4001 then (some "Gateway received invalid OP code", s, .auto, [])
      else if code = 4002 then (some "Gateway received invalid message", s, .auto, [])
      else if code = 4003 then (some "Not authenticated", { s with sessionID := none }, .auto, [])
      else if code = 4004 then
        (some "Authentication failed", { s with sessionID := none }, .flag false,
         [Effect.errorEv ("Invalid token: " ++ c.token)])
      else if code = 4005 then (some "Already authenticated", s, .auto, [])
      else if code = 4006 ∨ code = 4009 then
        (some "Invalid session", { s with sessionID := none }, .auto, [])
      else if code = 4007 then
        (some ("Invalid sequence number: " ++ toString s.seq), { s with seq := 0 }, .auto, [])
      else if code = 4008 then (some "Gateway connection was ratelimited", s, .auto, [])
      else if code = 4010 then
        (some "Invalid shard key", { s with sessionID := none }, .flag false, [])
      else if code = 4011 then
        (some "Shard has too many clubs (>2500)", { s with sessionID := none }, .flag false, [])
      else if code = 4013 then
        (some "Invalid intents specified", { s with sessionID := none }, .flag false, [])
      else if code = 4014 then
        (some "Disallowed intents specified", { s with sessionID := none }, .flag false, [])
      else if code = 1006 then (some "Connection reset by peer", s, .auto, [])
      else if code ≠ 1000 ∧ reason ≠ "" then
        (some (toString code ++ ": " ++ reason), s, .auto, [])
      else (err0, s, .auto, [])
    let r := disconnect c s' reconnectOpt err
    (r.1, e0 ++ e1 ++ extra ++ r.2)
  else
    let r := disconnect c s .auto err0
    (r.1, e0 ++ [.debugMsg ("WS close: unknown code: " ++ reason)] ++ r.2)

/-- Models `Shard.initializeWS()` (socket construction and listener wiring elided;
the compression debug line kept). -/
def initializeWS (c : Config) (s : Shard) : Shard × List Effect :=
  if c.token = "" then
    disconnect c s .undef (some "Token not specified")
  else
    let zlibEffs := if c.compress then [Effect.debugMsg "Initializing zlib-sync-based compression"] else []
    ({ s with status := "connecting", ws := some .connecting, connectTimeout := true }, zlibEffs)

/-- Models `Shard.connect()`. -/
def connect (c : Config) (s : Shard) : Shard × List Effect :=
  let existing : Bool := match s.ws with
    | some rs => rs != .closed
    | none => false
  if existing then (s, [.errorEv "Existing connection detected"])
  else initializeWS c { s with connectAttempts := s.connectAttempts + 1, connecting := true }

/-- A fresh shard as produced by the constructor's `hardReset()`. -/
def newShard (c : Config) (id : Nat) : Shard where
  id := id
  status := "disconnected"
  seq := 0
  sessionID := none
  lastHeartbeatAck := true
  lastHeartbeatSent := none
  lastHeartbeatReceived := none
  latency := none
  connecting := false
  ready := false
  preReady := false
  connectAttempts := 0
  reconnectInterval := 1000
  ws := none
  heartbeatTimer := none
  connectTimeout := false
  requestMembersPromise := []
  getAllUsersCount := []
  clubs := []
  unavailableClubs := []
  presenceStatus := c.clientPresenceStatus
  presenceAfk := c.clientPresenceAfk
  clubCreateTimeout := false

/-- External stimuli driving one shard: the socket opening, an inbound
packet, the heartbeat interval firing, a member-request timeout firing,
or the socket closing. -/
inductive GwInput where
  | wsOpen
  | packet (p : Packet) (now : Nat)
  | heartbeatTimerFire (now : Nat)
  | memberTimeoutFire (nonce : String)
  | wsClosed (code : Nat) (reason : String)
deriving Repr, DecidableEq, Inhabited

/-- One step of the shard under a stimulus.  `wsOpen` is `_onWSOpen`
(readyState flips to OPEN before the handler runs); the heartbeat timer
step is enabled exactly while the `setInterval` handle is live, and the
member-timeout step exactly while that request's entry is live. -/
def gwStep (c : Config) (s : Shard) (i : GwInput) : Shard × List Effect :=
  match i with
  | .wsOpen =>
    ({ s with ws := some .open, status := "handshaking", lastHeartbeatAck := true },
     [.connectEv])
  | .packet p now => onPacket c s p now
  | .heartbeatTimerFire now =>
    if s.heartbeatTimer.isSome then heartbeat c s true now else (s, [])
  | .memberTimeoutFire nonce => memberRequestTimeout s nonce
  | .wsClosed code reason =>
    let s' := { s with ws := some .closed }
    onWSClose c s' code reason

/-- Run a list of stimuli, accumulating effects in order. -/
def runGw (c : Config) (s : Shard) : List GwInput → Shard × List Effect
  | [] => (s, [])
  | i :: is =>
    let r := gwStep c s i
    let rest := runGw c r.1 is
    (rest.1, r.2 ++ rest.2)

/-- The gateway sends among a list of effects, as `(op, d)` pairs. -/
def sendsOf (effs : List Effect) : List (GatewayOp × J) :=
  effs.filterMap (fun e =>
    match e with
    | .send op d _ => some (op, d)
    | _ => none)

/-- The error events among a list of effects. -/
def errorsOf (effs : List Effect) : List String :=
  effs.filterMap (fun e =>
    match e with
    | .errorEv m => some m
    | _ => none)

/-- Member-request promise resolutions among a list of effects. -/
def resolutionsOf (effs : List Effect) : List (String × ResolveVal) :=
  effs.filterMap (fun e =>
    match e with
    | .resolveMembers n v => some (n, v)
    | _ => none)

/-- Whether a connect attempt (immediate or delayed) is scheduled among a
list of effects. -/
def schedulesConnect (effs : List Effect) : Bool :=
  effs.any (fun e =>
    match e with
    | .connectNow => true
    | .connectAfter _ => true
    | _ => false)

/-! ### VoiceConnectionManager (src/src/voice/VoiceConnectionManager.js) -/

/-- One entry of `this.pendingClubs` (`{channelID, options, res, rej,
timeout}` plus the `waiting` flag the update handler sets). -/
structure PendingJoin where
  channelID : String
  opusOnly : Bool
  shared : Bool
  waiting : Bool
  /-- Models `some ms` while the 10-second join timeout is armed; the update
  handler sets the field to null. -/
  timeout : Option Nat
deriving Repr, DecidableEq, Inhabited

/-- An external voice session held in the manager's collection. -/
structure VoiceConn where
  clubID : String
  /-- whether `connection.ws` is truthy (a live session). -/
  hasWS : Bool
  ready : Bool
  channelID : String
deriving Repr, DecidableEq, Inhabited

/-- The manager's own state: the collection keyed by club id plus the
pending-join table. -/
structure VCM where
  connections : List (String × VoiceConn)
  pendingClubs : List (String × PendingJoin)
deriving Repr, DecidableEq, Inhabited

/-- The `d` of a VOICE_SERVER_UPDATE, after the shard attached
`session_id`, `user_id` and its own reference. -/
structure VSUData where
  clubID : String
  endpoint : String
  token : String
  sessionID : String
  userID : String
deriving Repr, DecidableEq, Inhabited

/-- Observable effects of the voice manager. -/
inductive VEffect where
  | switchChannel (clubID channelID : String)
  /-- the `join` future resolved with the (already ready) session. -/
  | resolveJoin (clubID : String)
  /-- the `join` future rejected with the given error message. -/
  | rejectJoin (clubID : String) (msg : String)
  /-- Models `setTimeout` arming the 10 s join timeout. -/
  | armedJoinTimeout (clubID : String) (ms : Nat)
  /-- Models `clearTimeout` on a pending join's timeout. -/
  | clearedJoinTimeout (clubID : String)
  /-- one-shot ready/disconnect/error listeners attached to the live but
  not yet ready session by `join`. -/
  | attachedJoinListeners (clubID : String)
  /-- Models `connection.connect({channel_id, endpoint, token, session_id,
  user_id})` invoked. -/
  | connConnect (clubID channelID endpoint token sessionID userID : String)
  /-- a fresh `VoiceConnection` constructed (with the pending options). -/
  | newConnection (clubID : String) (opusOnly shared : Bool)
  /-- one-shot ready/disconnect/error listeners attached by
  `voiceServerUpdate`. -/
  | attachedUpdateListeners (clubID : String)
deriving Repr, DecidableEq, Inhabited

/-- Models `VoiceConnectionManager.join(clubID, channelID, options)`: with a live
session, switch channel and either resolve immediately (session ready) or
attach one-shot listeners; otherwise record a pending join with a
10-second timeout. -/
def vcmJoin (m : VCM) (clubID channelID : String) (opusOnly shared : Bool) :
    VCM × List VEffect :=
  let freshPending : PendingJoin :=
    { channelID := channelID, opusOnly := opusOnly, shared := shared,
      waiting := false, timeout := some 10000 }
  match m.connections.lookup clubID with
  | some conn =>
    if conn.hasWS then
      let m' := { m with connections :=
        (setAssoc m.connections clubID { conn with channelID := channelID }) }
      if conn.ready then
        (m', [.switchChannel clubID channelID, .resolveJoin clubID])
      else
        (m', [.switchChannel clubID channelID, .attachedJoinListeners clubID])
    else
      ({ m with pendingClubs :=
          (m.pendingClubs.filter (fun p => p.1 ≠ clubID) ++ [(clubID, freshPending)]) },
       [.armedJoinTimeout clubID 10000])
  | none =>
    ({ m with pendingClubs :=
        (m.pendingClubs.filter (fun p => p.1 ≠ clubID) ++ [(clubID, freshPending)]) },
     [.armedJoinTimeout clubID 10000])

/-- Firing of the 10-second timeout armed by `join` for `clubID`: the
entry is deleted and the future rejects with "Voice connection timeout".
Enabled only while the entry holds a live timeout handle. -/
def vcmJoinTimeout (m : VCM) (clubID : String) : VCM × List VEffect :=
  match m.pendingClubs.lookup clubID with
  | some pending =>
    if pending.timeout.isSome then
      ({ m with pendingClubs := m.pendingClubs.filter (fun p => p.1 ≠ clubID) },
       [.rejectJoin clubID "Voice connection timeout"])
    else (m, [])
  | none => (m, [])

/-- Models `VoiceConnectionManager.voiceServerUpdate(data)`: cancel the matched
pending timeout; look up — or, if a pending join exists, construct — the
session; invoke `connect` with the channel drawn from the pending record
(or the session); and attach the one-shot listeners when a pending entry
is present and not yet `waiting`. -/
def voiceServerUpdate (m : VCM) (data : VSUData) : VCM × List VEffect :=
  let (m₁, e₁) := match m.pendingClubs.lookup data.clubID with
    | some pending =>
      if pending.timeout.isSome then
        ({ m with pendingClubs :=
            (setAssoc m.pendingClubs data.clubID { pending with timeout := none }) },
         [VEffect.clearedJoinTimeout data.clubID])
      else (m, [])
    | none => (m, [])
  match m₁.connections.lookup data.clubID with
  | none =>
    match m₁.pendingClubs.lookup data.clubID with
    | none => (m₁, e₁)
    | some pending =>
      let conn : VoiceConn :=
        { clubID := data.clubID, hasWS := false, ready := false,
          channelID := pending.channelID }
      let m₂ := { m₁ with connections := m₁.connections ++ [(data.clubID, conn)] }
      let e₂ := e₁ ++ [VEffect.newConnection data.clubID pending.opusOnly pending.shared,
        VEffect.connConnect data.clubID pending.channelID data.endpoint data.token
          data.sessionID data.userID]
      if pending.waiting then (m₂, e₂)
      else
        ({ m₂ with pendingClubs :=
            (setAssoc m₂.pendingClubs data.clubID { pending with waiting := true }) },
         e₂ ++ [VEffect.attachedUpdateListeners data.clubID])
  | some conn =>
    let channelID := match m₁.pendingClubs.lookup data.clubID with
      | some pending => pending.channelID
      | none => conn.channelID
    let e₂ := e₁ ++ [VEffect.connConnect data.clubID channelID data.endpoint data.token
        data.sessionID data.userID]
    match m₁.pendingClubs.lookup data.clubID with
    | none => (m₁, e₂)
    | some pending =>
      if pending.waiting then (m₁, e₂)
      else
        ({ m₁ with pendingClubs :=
            (setAssoc m₁.pendingClubs data.clubID { pending with waiting := true }) },
         e₂ ++ [VEffect.attachedUpdateListeners data.clubID])

/-! ### Association-list helper lemmas -/

theorem lookup_filter_ne_self {α : Type} (l : List (String × α)) (k : String) :
    (l.filter (fun p => p.1 ≠ k)).lookup k = none := by
  induction l with
  | nil => rfl
  | cons hd tl ih =>
    simp only [ne_eq, List.filter_cons] at ih ⊢
    by_cases h : hd.1 = k
    · simpa [h] using ih
    · have hbe : (k == hd.1) = false := by simpa using fun e => h e.symm
      simpa [h, List.lookup, hbe] using ih

theorem lookup_append {α : Type} (l₁ l₂ : List (String × α)) (k : String)
    (h : l₁.lookup k = none) : (l₁ ++ l₂).lookup k = l₂.lookup k := by
  induction l₁ with
  | nil => rfl
  | cons hd tl ih =>
    by_cases hk : k = hd.1
    · simp [List.lookup, hk] at h
    · simp only [List.cons_append, List.lookup] at h ⊢
      rw [show (k == hd.1) = false by simpa using hk] at h ⊢
      exact ih h

theorem lookup_setAssoc_some {α : Type} (l : List (String × α)) (k : String) (v w : α)
    (h : l.lookup k = some v) : (setAssoc l k w).lookup k = some w := by
  induction l with
  | nil => simp [List.lookup] at h
  | cons hd tl ih =>
    by_cases hk : k = hd.1
    · subst hk
      have hrw : setAssoc (hd :: tl) hd.1 w
          = (hd.1, w) :: List.map (fun p => if p.1 = hd.1 then (hd.1, w) else p) tl := by
        simp [setAssoc]
      rw [hrw]
      simp [List.lookup]
    · have hbe : (k == hd.1) = false := by simpa using hk
      simp only [List.lookup, hbe] at h
      simp only [setAssoc, List.map_cons]
      rw [if_neg (fun e => hk e.symm)]
      simp only [List.lookup, hbe]
      exact ih h

/-- C10: a `voiceServerUpdate` for a club with neither a session in the
collection nor a pending-join entry is a no-op: no session is built, no
connect or listener attachment happens, and the manager state is
unchanged. -/
theorem voiceServerUpdate_noop (m : VCM) (data : VSUData)
    (hconn : m.connections.lookup data.clubID = none)
    (hpend : m.pendingClubs.lookup data.clubID = none) :
    voiceServerUpdate m data = (m, []) := by
  simp [voiceServerUpdate, hconn, hpend]

/-- Witness for `voiceServerUpdate_noop` on a concrete manager state. -/
theorem voiceServerUpdate_noop_witness :
    voiceServerUpdate
      { connections := [("g2", { clubID := "g2", hasWS := true, ready := true, channelID := "c9" })],
        pendingClubs := [] }
      { clubID := "g1", endpoint := "e", token := "t", sessionID := "s", userID := "u" }
    = ({ connections := [("g2", { clubID := "g2", hasWS := true, ready := true, channelID := "c9" })],
         pendingClubs := [] }, []) :=
  voiceServerUpdate_noop _ _ rfl rfl

/-- With no live session for the club (no entry, or an entry whose `ws` is
gone), `join` records a fresh pending entry with the 10 s timeout. -/
theorem vcmJoin_noLive (m : VCM) (clubID channelID : String) (opusOnly shared : Bool)
    (hlive : ∀ conn, m.connections.lookup clubID = some conn → conn.hasWS = false) :
    vcmJoin m clubID channelID opusOnly shared
      = ({ m with pendingClubs :=
            (m.pendingClubs.filter (fun p => p.1 ≠ clubID)
              ++ [(clubID, { channelID := channelID, opusOnly := opusOnly, shared := shared,
                             waiting := false, timeout := some 10000 })]) },
         [.armedJoinTimeout clubID 10000]) := by
  cases hc : m.connections.lookup clubID with
  | none => simp [vcmJoin, hc]
  | some conn => simp [vcmJoin, hc, hlive conn hc]

/-- The pending entry just written by `join` is what `lookup` returns. -/
theorem pending_lookup_after_put {α : Type} (l : List (String × α)) (k : String) (v : α) :
    ((l.filter (fun p => p.1 ≠ k)) ++ [(k, v)]).lookup k = some v := by
  rw [lookup_append _ _ _ (lookup_filter_ne_self l k)]
  simp [List.lookup]

/-- Equality of two strings up to letter case. -/
def eqIgnoringCase (a b : String) : Bool :=
  a.data.map Char.toLower == b.data.map Char.toLower

/-- A `voiceServerUpdate` matching a pending join whose timeout is armed
and whose listeners are not yet attached: whatever the connection
collection holds, the pending timeout is cleared (and the `waiting` flag
set once the listeners are attached). -/
theorem voiceServerUpdate_clears (M : VCM) (data : VSUData) (p : PendingJoin)
    (hp : M.pendingClubs.lookup data.clubID = some p)
    (ht : p.timeout.isSome = true) (hw : p.waiting = false) :
    (voiceServerUpdate M data).1.pendingClubs.lookup data.clubID
        = some { p with waiting := true, timeout := none }
      ∧ VEffect.clearedJoinTimeout data.clubID ∈ (voiceServerUpdate M data).2 := by
  have hcl : (setAssoc M.pendingClubs data.clubID
      { channelID := p.channelID, opusOnly := p.opusOnly, shared := p.shared,
        waiting := false, timeout := none }).lookup data.clubID
      = some { channelID := p.channelID, opusOnly := p.opusOnly, shared := p.shared,
               waiting := false, timeout := none } := lookup_setAssoc_some _ _ _ _ hp
  cases hc : M.connections.lookup data.clubID with
  | none =>
    refine ⟨?_, ?_⟩
    · simp only [voiceServerUpdate, hp, ht, if_true, hw, hc, hcl,
        Bool.false_eq_true, if_false]
      exact lookup_setAssoc_some _ _ _ _ hcl
    · simp only [voiceServerUpdate, hp, ht, if_true, hw, hc, hcl,
        Bool.false_eq_true, if_false]
      simp
  | some conn =>
    refine ⟨?_, ?_⟩
    · simp only [voiceServerUpdate, hp, ht, if_true, hw, hc, hcl,
        Bool.false_eq_true, if_false]
      exact lookup_setAssoc_some _ _ _ _ hcl
    · simp only [voiceServerUpdate, hp, ht, if_true, hw, hc, hcl,
        Bool.false_eq_true, if_false]
      simp

/-- C7: a `join(clubID, channelID)` with no live session records a
pending-join entry carrying a 10-second timeout; if the timeout fires
before a matching update, the future rejects with the message
"voice connection timeout" (up to capitalization: the source capitalizes
"Voice") and the entry is removed; a matching VOICE_SERVER_UPDATE
instead cancels the pending timeout (the entry survives with its timeout
handle cleared). -/
theorem voice_join_timeout_spec (m : VCM) (clubID channelID : String)
    (opusOnly shared : Bool) (data : VSUData)
    (hlive : ∀ conn, m.connections.lookup clubID = some conn → conn.hasWS = false)
    (hdata : data.clubID = clubID) :
    ((vcmJoin m clubID channelID opusOnly shared).1.pendingClubs.lookup clubID
        = some { channelID := channelID, opusOnly := opusOnly, shared := shared,
                 waiting := false, timeout := some 10000 }
      ∧ (vcmJoin m clubID channelID opusOnly shared).2 = [.armedJoinTimeout clubID 10000])
    ∧ ((vcmJoinTimeout (vcmJoin m clubID channelID opusOnly shared).1 clubID).1.pendingClubs.lookup clubID = none
      ∧ (vcmJoinTimeout (vcmJoin m clubID channelID opusOnly shared).1 clubID).2
          = [.rejectJoin clubID "Voice connection timeout"]
      ∧ eqIgnoringCase "Voice connection timeout" "voice connection timeout" = true)
    ∧ ((voiceServerUpdate (vcmJoin m clubID channelID opusOnly shared).1 data).1.pendingClubs.lookup clubID
        = some { channelID := channelID, opusOnly := opusOnly, shared := shared,
                 waiting := true, timeout := none }
      ∧ VEffect.clearedJoinTimeout clubID
          ∈ (voiceServerUpdate (vcmJoin m clubID channelID opusOnly shared).1 data).2) := by
  rw [vcmJoin_noLive m clubID channelID opusOnly shared hlive]
  have hlook : ((m.pendingClubs.filter (fun p => p.1 ≠ clubID))
      ++ [(clubID, ({ channelID := channelID, opusOnly := opusOnly, shared := shared,
                      waiting := false, timeout := some 10000 } : PendingJoin))]).lookup clubID
      = some { channelID := channelID, opusOnly := opusOnly, shared := shared,
               waiting := false, timeout := some 10000 } :=
    pending_lookup_after_put _ _ _
  refine ⟨⟨hlook, rfl⟩, ⟨?_, ?_, by decide⟩, ?_⟩
  · simp only [vcmJoinTimeout, hlook, Option.isSome_some, if_true]
    exact lookup_filter_ne_self _ _
  · simp only [vcmJoinTimeout, hlook, Option.isSome_some, if_true]
  · subst hdata
    exact voiceServerUpdate_clears _ data
      { channelID := channelID, opusOnly := opusOnly, shared := shared,
        waiting := false, timeout := some 10000 }
      hlook rfl rfl

/-- Witness for `voice_join_timeout_spec`: a join on an empty manager,
followed by the timeout firing, rejects with the exact source message. -/
theorem voice_join_timeout_spec_witness :
    (vcmJoinTimeout (vcmJoin { connections := [], pendingClubs := [] } "g1" "c1" false false).1 "g1").2
      = [.rejectJoin "g1" "Voice connection timeout"] :=
  ((voice_join_timeout_spec { connections := [], pendingClubs := [] } "g1" "c1" false false
      { clubID := "g1", endpoint := "e", token := "t", sessionID := "s", userID := "u" }
      (fun conn h => by cases h) rfl).2.1).2.1

theorem resolutionsOf_append (a b : List Effect) :
    resolutionsOf (a ++ b) = resolutionsOf a ++ resolutionsOf b := by
  simp [resolutionsOf]

/-- C5: a CLUB_MEMBERS_CHUNK for a live nonce (with the club cached)
appends its members to the request's buffer; the chunk with
`chunk_index >= chunk_count - 1` resolves the request with every
accumulated member in arrival order, clears its timeout and deletes the
entry; and the request timeout firing first resolves with the members
received so far and deletes the entry.  The effect language has no
rejection for member requests — the source only ever resolves them — so
the resolution lists below also witness that nothing rejects. -/
theorem member_chunk_reassembly (s : Shard) (d : ChunkData) (req : MemberReq)
    (hclub : s.clubs.contains d.clubID = true)
    (hreq : s.requestMembersPromise.lookup d.nonce = some req)
    (htmo : req.timeoutActive = true) :
    (d.chunkIndex < d.chunkCount - 1 →
      (clubMembersChunk s d).1.requestMembersPromise.lookup d.nonce
        = some { req with members := req.members ++ d.members }
      ∧ resolutionsOf (clubMembersChunk s d).2 = [])
    ∧ (d.chunkIndex ≥ d.chunkCount - 1 →
      resolutionsOf (clubMembersChunk s d).2
          = [(d.nonce, .memberList (req.members ++ d.members))]
      ∧ Effect.clearedMemberTimeout d.nonce ∈ (clubMembersChunk s d).2
      ∧ (clubMembersChunk s d).1.requestMembersPromise.lookup d.nonce = none)
    ∧ ((memberRequestTimeout s d.nonce).2 = [.resolveMembers d.nonce (.memberList req.members)]
      ∧ (memberRequestTimeout s d.nonce).1.requestMembersPromise.lookup d.nonce = none) := by
  have hupd : (setAssoc s.requestMembersPromise d.nonce
      { req with members := req.members ++ d.members }).lookup d.nonce
      = some { req with members := req.members ++ d.members } :=
    lookup_setAssoc_some _ _ _ _ hreq
  have hready : ∀ t : Shard, (checkReady t).1.requestMembersPromise = t.requestMembersPromise := by
    intro t
    unfold checkReady
    split_ifs <;> rfl
  have hreadyEffs : ∀ t : Shard, resolutionsOf (checkReady t).2 = [] := by
    intro t
    unfold checkReady
    split_ifs <;> rfl
  refine ⟨?_, ?_, ?_, ?_⟩
  · intro hlt
    unfold clubMembersChunk
    rw [if_neg (not_not_intro hclub)]
    simp only [hreq]
    rw [if_neg (not_le.mpr hlt)]
    exact ⟨hupd, rfl⟩
  · intro hge
    unfold clubMembersChunk chunkFinalize
    rw [if_neg (not_not_intro hclub)]
    simp only [hreq]
    rw [if_pos hge]
    simp only [hupd]
    by_cases hg : s.getAllUsersCount.contains d.clubID = true
    · rw [if_pos hg]
      refine ⟨?_, ?_, ?_⟩
      · rw [resolutionsOf_append, resolutionsOf_append, hreadyEffs]
        simp [resolutionsOf]
      · simp
      · simp only [hready]
        exact lookup_filter_ne_self _ _
    · rw [if_neg hg]
      refine ⟨?_, ?_, ?_⟩
      · simp [resolutionsOf_append, resolutionsOf]
      · simp
      · exact lookup_filter_ne_self _ _
  · simp only [memberRequestTimeout, hreq, htmo, if_true]
  · simp only [memberRequestTimeout, hreq, htmo, if_true]
    exact lookup_filter_ne_self _ _

/-- A concrete client configuration used by witnesses (mirroring the
default option values named in the spec: `largeThreshold` 250,
`maxResumeAttempts` 10, `requestTimeout` 15000, `connectionTimeout`
30000). -/
def cfg0 : Config where
  token := "Bot X"
  compress := false
  zlibAvailable := true
  largeThreshold := 250
  clubSubscriptions := false
  intents := none
  maxShards := 1
  autoreconnect := true
  maxResumeAttempts := 10
  requestTimeout := 15000
  connectionTimeout := 30000
  disableEvents := []
  platform := "linux"
  gatewayVersion := 6
  rand1000 := 500
  clientPresenceStatus := none
  clientPresenceAfk := false

/-- A shard holding one cached club and one outstanding member request
that has already buffered one member. -/
def chunkShard : Shard :=
  { newShard cfg0 0 with
      clubs := ["g"]
      requestMembersPromise := [("n1", { received := 0, members := ["m0"], timeoutActive := true })] }

/-- A final member chunk (index 1 of 2) for that request. -/
def chunkFinal : ChunkData :=
  { clubID := "g", members := ["m1", "m2"], nonce := "n1",
    chunkIndex := 1, chunkCount := 2, presences := [] }

/-- Witness for `member_chunk_reassembly`: the final chunk resolves the
request with all three members in arrival order. -/
theorem member_chunk_reassembly_witness :
    resolutionsOf (clubMembersChunk chunkShard chunkFinal).2
      = [("n1", ResolveVal.memberList ["m0", "m1", "m2"])] :=
  ((member_chunk_reassembly chunkShard chunkFinal
      { received := 0, members := ["m0"], timeoutActive := true }
      (by decide) rfl rfl).2.1 (by decide)).1

/-! ### Effect-classification lemmas for `reset`/`disconnect` -/

theorem sendsOf_append (a b : List Effect) :
    sendsOf (a ++ b) = sendsOf a ++ sendsOf b := by
  simp [sendsOf]

theorem errorsOf_append (a b : List Effect) :
    errorsOf (a ++ b) = errorsOf a ++ errorsOf b := by
  simp [errorsOf]

theorem schedulesConnect_append (a b : List Effect) :
    schedulesConnect (a ++ b) = (schedulesConnect a || schedulesConnect b) := by
  simp [schedulesConnect]

theorem sendsOf_reset (s : Shard) : sendsOf (reset s).2 = [] := by
  simp only [reset, sendsOf]
  rw [List.filterMap_eq_nil_iff]
  intro e he
  rcases List.mem_flatMap.mp he with ⟨p, hp, hin⟩
  simp only [List.mem_cons, List.not_mem_nil, or_false] at hin
  rcases hin with h | h <;> subst h <;> rfl

theorem errorsOf_reset (s : Shard) : errorsOf (reset s).2 = [] := by
  simp only [reset, errorsOf]
  rw [List.filterMap_eq_nil_iff]
  intro e he
  rcases List.mem_flatMap.mp he with ⟨p, hp, hin⟩
  simp only [List.mem_cons, List.not_mem_nil, or_false] at hin
  rcases hin with h | h <;> subst h <;> rfl

theorem schedulesConnect_reset (s : Shard) : schedulesConnect (reset s).2 = false := by
  simp only [reset, schedulesConnect]
  rw [List.any_eq_false]
  intro e he
  rcases List.mem_flatMap.mp he with ⟨p, hp, hin⟩
  simp only [List.mem_cons, List.not_mem_nil, or_false] at hin
  rcases hin with h | h <;> subst h <;> simp

theorem hardReset_effects_eq (c : Config) (t : Shard) : (hardReset c t).2 = (reset t).2 := rfl

theorem sendsOf_closeEffs (rs : WSReadyState) (rt ss : Bool) :
    sendsOf (disconnectCloseEffs rs rt ss) = [] := by
  unfold disconnectCloseEffs
  split_ifs <;> rfl

theorem errorsOf_closeEffs (rs : WSReadyState) (rt ss : Bool) :
    errorsOf (disconnectCloseEffs rs rt ss) = [] := by
  unfold disconnectCloseEffs
  split_ifs <;> rfl

theorem schedulesConnect_closeEffs (rs : WSReadyState) (rt ss : Bool) :
    schedulesConnect (disconnectCloseEffs rs rt ss) = false := by
  unfold disconnectCloseEffs
  split_ifs <;> rfl

theorem sendsOf_tail (c : Config) (ro : ReconnectOpt) (s₄ : Shard) :
    sendsOf (disconnectTail c ro s₄).2 = [] := by
  unfold disconnectTail
  split_ifs <;> first
    | (cases s₄.sessionID <;> rfl)
    | (rw [hardReset_effects_eq]; exact sendsOf_reset _)

theorem errorsOf_tail (c : Config) (ro : ReconnectOpt) (s₄ : Shard) :
    errorsOf (disconnectTail c ro s₄).2 = [] := by
  unfold disconnectTail
  split_ifs <;> first
    | (cases s₄.sessionID <;> rfl)
    | (rw [hardReset_effects_eq]; exact errorsOf_reset _)

theorem schedulesConnect_tail_of_ne_auto (c : Config) (ro : ReconnectOpt) (s₄ : Shard)
    (hro : ro ≠ .auto) : schedulesConnect (disconnectTail c ro s₄).2 = false := by
  unfold disconnectTail
  rw [if_neg (fun h => hro h.1)]
  split_ifs with h
  · rfl
  · show schedulesConnect (hardReset c s₄).2 = false
    rw [hardReset_effects_eq]
    exact schedulesConnect_reset _

/-- Models `disconnect` never reaches `sendWS`: no gateway frame goes out. -/
theorem sendsOf_disconnect (c : Config) (s : Shard) (ro : ReconnectOpt) (err : Option String) :
    sendsOf (disconnect c s ro err).2 = [] := by
  unfold disconnect
  cases s.ws with
  | none => rfl
  | some rs =>
    simp only [sendsOf_append, sendsOf_closeEffs, sendsOf_reset, sendsOf_tail,
      List.nil_append, List.append_nil]
    cases err <;>
      cases hb : ((reset { s with heartbeatTimer := none, ws := none }).1.sessionID.isSome
        && decide ((reset { s with heartbeatTimer := none, ws := none }).1.connectAttempts
          ≥ c.maxResumeAttempts)) <;>
      simp [sendsOf]

/-- With a socket present, `disconnect` emits exactly the error it was
handed (the reset resolutions, socket-close actions, debug lines and the
reconnect tail carry no errors). -/
theorem errorsOf_disconnect (c : Config) (s : Shard) (ro : ReconnectOpt) (err : Option String)
    (rs : WSReadyState) (hws : s.ws = some rs) :
    errorsOf (disconnect c s ro err).2 = err.toList := by
  unfold disconnect
  rw [hws]
  simp only [errorsOf_append, errorsOf_closeEffs, errorsOf_reset, errorsOf_tail,
    List.nil_append, List.append_nil]
  cases err <;>
    cases hb : ((reset { s with heartbeatTimer := none, ws := none }).1.sessionID.isSome
      && decide ((reset { s with heartbeatTimer := none, ws := none }).1.connectAttempts
        ≥ c.maxResumeAttempts)) <;>
    simp [errorsOf]

/-- Models `disconnect` with a non-`"auto"` reconnect option schedules no further
connect attempt. -/
theorem schedulesConnect_disconnect_of_ne_auto (c : Config) (s : Shard) (ro : ReconnectOpt)
    (err : Option String) (hro : ro ≠ .auto) :
    schedulesConnect (disconnect c s ro err).2 = false := by
  unfold disconnect
  cases s.ws with
  | none => rfl
  | some rs =>
    simp only [schedulesConnect_append, schedulesConnect_closeEffs, schedulesConnect_reset,
      schedulesConnect_tail_of_ne_auto c ro _ hro, Bool.or_false, Bool.false_or]
    cases err <;>
      cases hb : ((reset { s with heartbeatTimer := none, ws := none }).1.sessionID.isSome
        && decide ((reset { s with heartbeatTimer := none, ws := none }).1.connectAttempts
          ≥ c.maxResumeAttempts)) <;>
      simp [schedulesConnect]

/-- A shard holding an outstanding member request whose buffer already
holds one member, about to be disconnected. -/
def outstandingShard : Shard :=
  { newShard cfg0 0 with
      ws := some .open
      status := "ready"
      sessionID := some "sess"
      requestMembersPromise := [("n1", { received := 0, members := ["m0"], timeoutActive := true })] }

/-- C6 (code bug): disconnecting a shard with an outstanding member
request clears the request's timeout and resolves — never rejects — the
promise, but the resolution value is the numeric `received` field, which
the source initializes to 0 and never increments, not the buffered member
list the claim (and the timeout/final-chunk paths, which both resolve
with `.members`) prescribe. -/
theorem disconnect_resolves_with_counter :
    (disconnect cfg0 outstandingShard .undef none).2
      = [.wsClose 1000, .clearedMemberTimeout "n1",
         .resolveMembers "n1" (.counter 0), .disconnectEv]
    ∧ ResolveVal.counter 0 ≠ ResolveVal.memberList ["m0"] :=
  ⟨rfl, by decide⟩

/-- The literal error message of the zombie-connection disconnect. -/
def zombieMsg : String :=
  "Server didn't acknowledge previous heartbeat, possible lost connection"

/-- C2 amended: when the periodic heartbeat fires with
`lastHeartbeatAck = false` and the shard is **not** resuming, it
disconnects with `reconnect: "auto"` and the
"Server didn't acknowledge previous heartbeat" error, and sends no
heartbeat frame; while `status = "resuming"` the attempt is suppressed
entirely (see the counterexample below). -/
theorem heartbeat_zombie_spec (c : Config) (s : Shard) (now : Nat)
    (hst : s.status ≠ "resuming") (hack : s.lastHeartbeatAck = false)
    (hws : s.ws = some .open) :
    heartbeat c s true now
      = ((disconnect c s .auto (some zombieMsg)).1,
         Effect.debugHBTimeout s.lastHeartbeatReceived s.lastHeartbeatSent s.status now
           :: (disconnect c s .auto (some zombieMsg)).2)
    ∧ sendsOf (heartbeat c s true now).2 = []
    ∧ errorsOf (heartbeat c s true now).2 = [zombieMsg] := by
  have hmain : heartbeat c s true now
      = ((disconnect c s .auto (some zombieMsg)).1,
         Effect.debugHBTimeout s.lastHeartbeatReceived s.lastHeartbeatSent s.status now
           :: (disconnect c s .auto (some zombieMsg)).2) := by
    unfold heartbeat
    rw [if_neg hst]
    rw [if_pos (by simp [hack])]
    rfl
  refine ⟨hmain, ?_, ?_⟩
  · rw [hmain]
    show sendsOf (disconnect c s .auto (some zombieMsg)).2 = []
    exact sendsOf_disconnect c s .auto (some zombieMsg)
  · rw [hmain]
    show errorsOf (disconnect c s .auto (some zombieMsg)).2 = [zombieMsg]
    rw [errorsOf_disconnect c s .auto (some zombieMsg) .open hws]
    rfl

/-- Witness for `heartbeat_zombie_spec` on a concrete ready shard with an
unacknowledged heartbeat. -/
theorem heartbeat_zombie_spec_witness :
    errorsOf (heartbeat cfg0
      { newShard cfg0 0 with
          ws := some .open
          status := "ready"
          sessionID := some "abc"
          heartbeatTimer := some 41250
          lastHeartbeatAck := false } true 5).2 = [zombieMsg] :=
  (heartbeat_zombie_spec cfg0 _ 5 (by decide) rfl rfl).2.2

/-- The stimuli that drive a fresh shard into `status = "resuming"` with
`lastHeartbeatAck = false`: open, HELLO (no session, so identify), READY
(stores the session id), one periodic heartbeat (clears the ACK flag), a
second HELLO (session held, so resume). -/
def zombieTrace : List GwInput :=
  [.wsOpen,
   .packet { op := .hello, d := .hello 41250 } 0,
   .packet { op := .event, s := some 1, t := some "READY", d := .ready "abc" [] } 1,
   .heartbeatTimerFire 2,
   .packet { op := .hello, d := .hello 41250 } 3]

/-- The shard state reached by `zombieTrace`. -/
def resumingShard : Shard :=
  (runGw cfg0 (connect cfg0 (newShard cfg0 0)).1 zombieTrace).1

/-- C2 counterexample: `zombieTrace` is a packet sequence the code accepts
that leaves a shard resuming with `lastHeartbeatAck = false`; the next
periodic heartbeat then does **not** disconnect — `heartbeat` returns
with no effect at all while `status = "resuming"` — refuting the claim's
unconditional "whenever the periodic heartbeat timer fires while
lastHeartbeatAck is false, the shard disconnects". -/
theorem heartbeat_zombie_counterexample :
    resumingShard.status = "resuming"
    ∧ resumingShard.lastHeartbeatAck = false
    ∧ resumingShard.heartbeatTimer = some 41250
    ∧ heartbeat cfg0 resumingShard true 4 = (resumingShard, []) :=
  ⟨rfl, rfl, rfl, rfl⟩

/-- C3 amended: INVALID_SESSION (op 9) zeroes the sequence, clears the
session id, warns, and re-identifies **immediately** — the IDENTIFY goes
straight through `sendWS`, with no randomized delay. -/
theorem invalid_session_spec (c : Config) (s : Shard) (now : Nat) (d : PacketD)
    (hws : s.ws = some .open)
    (hz : c.compress = true → c.zlibAvailable = true) :
    (onPacket c s { op := .invalidSession, d := d } now).1.seq = 0
    ∧ (onPacket c s { op := .invalidSession, d := d } now).1.sessionID = none
    ∧ (onPacket c s { op := .invalidSession, d := d } now).2
        = Effect.warnMsg "Invalid session, reidentifying!"
          :: sendWS { s with seq := 0, sessionID := none } .identifyOp
              (identifyPayload c { s with seq := 0, sessionID := none }) := by
  have hnz : ¬ (c.compress = true ∧ ¬ (c.zlibAvailable = true)) :=
    fun h => h.2 (hz h.1)
  unfold onPacket identify
  simp only [if_neg hnz]
  exact ⟨trivial, trivial, rfl⟩

/-- A shard mid-session (session held, sequence advanced), as it stands
when an INVALID_SESSION arrives. -/
def sessionShard : Shard :=
  { newShard cfg0 0 with
      ws := some .open
      status := "ready"
      sessionID := some "abc"
      seq := 42
      heartbeatTimer := some 41250 }

/-- C3 counterexample: on `{op: 9}` the code sends IDENTIFY in the same
synchronous step that handles the packet — the send effect is already in
the handler's effect list — and schedules nothing delayed, refuting the
claim that a fresh IDENTIFY is sent only after a randomized 1–5 s delay.
(The sequence reset and session clearing of the claim do hold.) -/
theorem invalid_session_counterexample :
    (onPacket cfg0 sessionShard { op := .invalidSession, d := .flag false } 99).1.seq = 0
    ∧ (onPacket cfg0 sessionShard { op := .invalidSession, d := .flag false } 99).1.sessionID = none
    ∧ (sendsOf (onPacket cfg0 sessionShard { op := .invalidSession, d := .flag false } 99).2).map
        Prod.fst = [GatewayOp.identifyOp]
    ∧ ((onPacket cfg0 sessionShard { op := .invalidSession, d := .flag false } 99).2.any
        (fun e => match e with | .connectAfter _ => true | _ => false)) = false :=
  ⟨rfl, rfl, rfl, rfl⟩

/-- C4 amended: a close with code 4004 emits **two** errors — the
"Invalid token" error emitted inside the close handler and the
"Authentication failed" close error that `disconnect` re-emits — clears
the session id, and schedules no further connect attempt. -/
theorem ws_close_4004_spec (c : Config) (s : Shard) (reason : String)
    (hws : s.ws = some .closed) :
    errorsOf (onWSClose c s 4004 reason).2
        = ["Invalid token: " ++ c.token, "Authentication failed"]
    ∧ (onWSClose c s 4004 reason).1.sessionID = none
    ∧ schedulesConnect (onWSClose c s 4004 reason).2 = false := by
  unfold onWSClose
  have h4 : (4004 : Nat) ≠ 0 := by decide
  rw [if_pos h4]
  simp only [show ((4004 : Nat) = 4001) = False by simp,
    show ((4004 : Nat) = 4002) = False by simp,
    show ((4004 : Nat) = 4003) = False by simp,
    show ((4004 : Nat) = 4004) = True by simp,
    if_false, if_true, iff_true, eq_self_iff_true]
  refine ⟨?_, ?_, ?_⟩
  · rw [errorsOf_append, errorsOf_append, errorsOf_append,
      errorsOf_disconnect c { s with sessionID := none } (.flag false)
        (some "Authentication failed") .closed hws]
    rfl
  · show (disconnect c { s with sessionID := none } (.flag false) (some "Authentication failed")).1.sessionID
        = none
    unfold disconnect
    rw [hws]
    show (disconnectTail c (.flag false) _).1.sessionID = none
    unfold disconnectTail
    rw [if_neg (fun h => ReconnectOpt.noConfusion h.1), if_pos (by decide)]
    rfl
  · rw [schedulesConnect_append, schedulesConnect_append, schedulesConnect_append,
      schedulesConnect_disconnect_of_ne_auto c { s with sessionID := none } (.flag false)
        (some "Authentication failed") (fun h => ReconnectOpt.noConfusion h)]
    rfl

/-- A shard whose socket has just closed while a session was held. -/
def authFailShard : Shard :=
  { newShard cfg0 0 with
      ws := some .closed
      status := "handshaking"
      sessionID := some "abc"
      seq := 5 }

/-- C4 counterexample: the 4004 close path emits two error events, not
exactly one — refuting the claim's "exactly one authentication error is
emitted" (the sessionId clearing and the absence of any reconnect do
hold, see `ws_close_4004_spec`). -/
theorem ws_close_4004_counterexample :
    errorsOf (onWSClose cfg0 authFailShard 4004 "Authentication failed").2
      = ["Invalid token: Bot X", "Authentication failed"]
    ∧ (errorsOf (onWSClose cfg0 authFailShard 4004 "Authentication failed").2).length ≠ 1 :=
  ⟨rfl, by decide⟩

/-- Witness for `ws_close_4004_spec` at the concrete shard. -/
theorem ws_close_4004_spec_witness :
    (onWSClose cfg0 authFailShard 4004 "Authentication failed").1.sessionID = none
    ∧ schedulesConnect (onWSClose cfg0 authFailShard 4004 "Authentication failed").2 = false :=
  ⟨(ws_close_4004_spec cfg0 authFailShard "Authentication failed" rfl).2.1,
   (ws_close_4004_spec cfg0 authFailShard "Authentication failed" rfl).2.2⟩

/-- Witness for `invalid_session_spec` at a concrete mid-session shard. -/
theorem invalid_session_spec_witness :
    (onPacket cfg0 sessionShard { op := .invalidSession, d := .flag true } 7).1.sessionID = none :=
  (invalid_session_spec cfg0 sessionShard 7 (.flag true) rfl (by decide)).2.1

/-- C9: for any outbound frame whose `d` payload carries a truthy `token`
field, `sendWS` sends the frame with the token still present and then
emits the `debug` trace of the frame with the token field deleted: the
trace's `d` no longer has a `token` key while the sent `d` does. -/
theorem token_redacted_in_debug (s : Shard) (op : GatewayOp) (d : J) (pr : Bool) (tok : J)
    (hws : s.ws = some .open)
    (htok : d.lookup "token" = some tok) (htr : tok.truthy = true) :
    sendWS s op d pr = [.send op d pr, .debugFrame op (d.removeField "token")]
    ∧ (d.removeField "token").lookup "token" = none
    ∧ d.lookup "token" = some tok := by
  refine ⟨?_, ?_, htok⟩
  · unfold sendWS
    rw [if_pos hws, if_pos (by rw [htok]; exact htr)]
  · cases d with
    | obj fields =>
      simpa [J.removeField, J.lookup] using lookup_filter_ne_self fields "token"
    | null => simp [J.lookup] at htok
    | bool b => simp [J.lookup] at htok
    | num n => simp [J.lookup] at htok
    | str s => simp [J.lookup] at htok
    | arr xs => simp [J.lookup] at htok

/-- Witness for `token_redacted_in_debug` on the concrete IDENTIFY
payload: the trace of the identify frame has no token field. -/
theorem token_redacted_in_debug_witness :
    ((identifyPayload cfg0 (newShard cfg0 0)).removeField "token").lookup "token" = none :=
  (token_redacted_in_debug { newShard cfg0 0 with ws := some .open } .identifyOp
    (identifyPayload cfg0 (newShard cfg0 0)) false (J.str "Bot X") rfl rfl rfl).2.1

/-- The IDENTIFY payload reads only the shard's id and presence. -/
theorem identifyPayload_congr (c : Config) (s t : Shard)
    (hid : t.id = s.id) (hps : t.presenceStatus = s.presenceStatus)
    (hpa : t.presenceAfk = s.presenceAfk) :
    identifyPayload c t = identifyPayload c s := by
  unfold identifyPayload
  rw [hid, hps, hpa]

/-- C1: on HELLO with a held session the shard enters `"resuming"` and its
only gateway send is RESUME `{token, session_id, seq}` — no heartbeat;
every heartbeat attempt (periodic or not) while `status = "resuming"` is
suppressed outright; processing a RESUMED dispatch leaves `"resuming"`
for `"ready"` and immediately heartbeats.  On HELLO with no session the
shard sends exactly an IDENTIFY followed by one heartbeat. -/
theorem hello_resume_identify_spec (c : Config) (s : Shard) (now : Nat) (iv : Int)
    (hws : s.ws = some .open) :
    (∀ sid, s.sessionID = some sid →
        (onPacket c s { op := .hello, d := .hello iv } now).1.status = "resuming"
      ∧ sendsOf (onPacket c s { op := .hello, d := .hello iv } now).2
          = [(.resumeOp, J.obj [("token", J.str c.token),
                                ("session_id", J.str sid),
                                ("seq", J.num (s.seq : Int))])])
    ∧ (∀ (b : Bool) (now₂ : Nat), s.status = "resuming" → heartbeat c s b now₂ = (s, []))
    ∧ (s.sessionID = none → s.status ≠ "resuming" → (c.compress = true → c.zlibAvailable = true) →
        sendsOf (onPacket c s { op := .hello, d := .hello iv } now).2
          = [(.identifyOp, identifyPayload c s), (.heartbeat, J.num (s.seq : Int))])
    ∧ (s.status = "resuming" →
        (wsEvent c s { op := .event, t := some "RESUMED", d := .empty } now).1.status = "ready"
      ∧ sendsOf (wsEvent c s { op := .event, t := some "RESUMED", d := .empty } now).2
          = [(.heartbeat, J.num (s.seq : Int))]) := by
  refine ⟨?_, ?_, ?_, ?_⟩
  · intro sid hsid
    unfold onPacket resume
    simp only [hsid, sendWS]
    by_cases hiv : iv > 0 <;>
      simp [hiv, hws, hsid, sendsOf]
  · intro b now₂ hst
    unfold heartbeat
    rw [if_pos hst]
  · intro hsid hst hz
    have hnz : ¬ (c.compress = true ∧ ¬ (c.zlibAvailable = true)) :=
      fun h => h.2 (hz h.1)
    unfold onPacket identify heartbeat
    simp only [hsid, if_neg hnz, sendWS]
    by_cases hiv : iv > 0 <;>
      simp [hiv, hws, hsid, hst, sendsOf] <;>
      exact identifyPayload_congr c s _ rfl rfl rfl
  · intro hst
    unfold wsEvent heartbeat
    constructor
    · simp
    · simp only [sendWS]
      simp [hws, sendsOf]

/-- A shard with a retained session, at the HELLO of a fresh socket. -/
def resumeShard : Shard :=
  { newShard cfg0 0 with
      ws := some .open
      status := "handshaking"
      sessionID := some "abc"
      seq := 42 }

/-- Witness for `hello_resume_identify_spec`: the handshake of S2 — held
session `"abc"`, sequence 42 — sends exactly RESUME with those values. -/
theorem hello_resume_identify_spec_witness :
    sendsOf (onPacket cfg0 resumeShard { op := .hello, d := .hello 41250 } 0).2
      = [(.resumeOp, J.obj [("token", J.str "Bot X"),
                            ("session_id", J.str "abc"),
                            ("seq", J.num 42)])] :=
  ((hello_resume_identify_spec cfg0 resumeShard 0 41250 rfl).1 "abc" rfl).2

/-! ### Sequence tracking (C8) -/

/-- The truthy `s` fields of a packet list, in order (`if(packet.s)`:
absent and 0 are falsy). -/
def truthySeqs (ps : List Packet) : List Nat :=
  ps.filterMap (fun p =>
    match p.s with
    | some n => if n ≠ 0 then some n else none
    | none => none)

theorem checkReady_seq (t : Shard) : (checkReady t).1.seq = t.seq := by
  unfold checkReady
  split_ifs <;> rfl

theorem restartClubCreateTimeout_seq (t : Shard) :
    (restartClubCreateTimeout t).1.seq = t.seq := by
  unfold restartClubCreateTimeout
  dsimp only
  split_ifs <;> first
    | rfl
    | exact checkReady_seq _

theorem heartbeat_false_seq (c : Config) (t : Shard) (now : Nat) :
    (heartbeat c t false now).1.seq = t.seq := by
  unfold heartbeat
  dsimp only
  split_ifs <;> simp_all

theorem chunkFinalize_seq (u : Shard) (d : ChunkData) :
    (chunkFinalize u d).1.seq = u.seq := by
  unfold chunkFinalize
  cases hl : u.requestMembersPromise.lookup d.nonce <;>
    dsimp only <;>
    split_ifs <;>
      first
        | rfl
        | exact checkReady_seq _

theorem clubMembersChunk_seq (t : Shard) (cd : ChunkData) :
    (clubMembersChunk t cd).1.seq = t.seq := by
  unfold clubMembersChunk
  by_cases hc : t.clubs.contains cd.clubID = true
  · rw [if_neg (not_not_intro hc)]
    dsimp only
    by_cases hge : cd.chunkIndex ≥ cd.chunkCount - 1
    · rw [if_pos hge]
      refine (chunkFinalize_seq _ _).trans ?_
      cases hl : t.requestMembersPromise.lookup cd.nonce <;> rfl
    · rw [if_neg hge]
      cases hl : t.requestMembersPromise.lookup cd.nonce <;> rfl
  · rw [if_pos hc]

theorem readyClubsFold_seq (clubs : List (String × Bool)) (t : Shard) :
    (clubs.foldl (fun acc cl =>
        if cl.2 then
          { acc with
              clubs := acc.clubs.filter (fun x => x ≠ cl.1)
              unavailableClubs := acc.unavailableClubs ++ [cl.1] }
        else
          { acc with
              clubs := acc.clubs ++ [cl.1]
              unavailableClubs := acc.unavailableClubs.filter (fun x => x ≠ cl.1) }) t).seq
      = t.seq := by
  induction clubs generalizing t with
  | nil => rfl
  | cons cl rest ih =>
    simp only [List.foldl_cons]
    rw [ih]
    split <;> rfl

theorem wsEvent_seq (c : Config) (t : Shard) (p : Packet) (now : Nat) :
    (wsEvent c t p now).1.seq = t.seq := by
  unfold wsEvent
  split
  · split
    · exact clubMembersChunk_seq _ _
    · rfl
  · dsimp only
    exact heartbeat_false_seq c _ now
  · split
    · dsimp only
      split_ifs
      · exact (restartClubCreateTimeout_seq _).trans (readyClubsFold_seq _ _)
      · exact (checkReady_seq _).trans (readyClubsFold_seq _ _)
    · rfl
  · rfl
  · rfl

/-- Processing one dispatch packet assigns the truthy `s` field to the
stored sequence (and leaves it alone otherwise) — an assignment, not a
max. -/
theorem onPacket_event_seq (c : Config) (s : Shard) (p : Packet) (now : Nat)
    (hop : p.op = .event) :
    (onPacket c s p now).1.seq
      = (match p.s with
         | some n => if n ≠ 0 then n else s.seq
         | none => s.seq) := by
  unfold onPacket
  simp only [hop]
  cases hs : p.s with
  | none =>
    try dsimp only
    cases hpt : p.t <;> (try dsimp only) <;> split_ifs <;>
      first
        | rfl
        | exact wsEvent_seq c _ p now
  | some n =>
    by_cases hn : n ≠ 0
    · simp only [if_pos hn]
      try dsimp only
      cases hpt : p.t <;> (try dsimp only) <;> split_ifs <;>
        first
          | rfl
          | exact wsEvent_seq c _ p now
    · simp only [if_neg hn]
      try dsimp only
      cases hpt : p.t <;> (try dsimp only) <;> split_ifs <;>
        first
          | rfl
          | exact wsEvent_seq c _ p now

/-- Over a list of dispatch packets the stored sequence ends at the *last*
truthy `s` field (initial value if none). -/
theorem runGw_event_seq (c : Config) (s : Shard) (ps : List Packet)
    (hev : ∀ p ∈ ps, p.op = .event) :
    (runGw c s (ps.map (fun p => GwInput.packet p 0))).1.seq
      = (truthySeqs ps).foldl (fun _ n => n) s.seq := by
  induction ps generalizing s with
  | nil => rfl
  | cons p rest ih =>
    have hp := hev p (List.mem_cons_self p rest)
    have hseq := onPacket_event_seq c s p 0 hp
    simp only [List.map_cons, runGw, gwStep]
    try dsimp only
    rw [ih (onPacket c s p 0).1 (fun q hq => hev q (List.mem_cons_of_mem p hq)), hseq]
    unfold truthySeqs
    cases hs : p.s with
    | none => simp [hs]
    | some n =>
      by_cases hn : n ≠ 0
      · simp [hs, hn]
      · simp [hs, hn]

/-- Under non-decreasing inputs, "keep the last" agrees with "keep the
max". -/
theorem foldl_last_eq_foldl_max (init : Nat) (l : List Nat)
    (h : List.Chain' (· ≤ ·) (init :: l)) :
    l.foldl (fun _ n => n) init = l.foldl max init := by
  induction l generalizing init with
  | nil => rfl
  | cons n rest ih =>
    rcases List.chain'_cons.mp h with ⟨h1, h2⟩
    simp only [List.foldl_cons]
    rw [max_eq_right h1]
    exact ih n h2

/-- C8 amended: when the received `s` fields arrive in non-decreasing
order (starting at or above the stored sequence), the stored sequence
after a run of dispatch packets equals the maximum of the initial value
and every received truthy `s`, and that stored value is exactly what a
periodic heartbeat sends; a packet whose `s` skips ahead — while a socket
is present and the shard is not resuming — emits the non-consecutive
warning and changes nothing but the sequence (in particular the session
id and status survive).  Without the ordering hypothesis the sequence is
assigned, not maxed — see the counterexample. -/
theorem sequence_tracking_spec (c : Config) (s : Shard) (ps : List Packet)
    (hev : ∀ p ∈ ps, p.op = .event)
    (hchain : List.Chain' (· ≤ ·) (s.seq :: truthySeqs ps)) :
    (runGw c s (ps.map (fun p => GwInput.packet p 0))).1.seq
      = (truthySeqs ps).foldl max s.seq
    ∧ (∀ (t : Shard) (now : Nat), t.status ≠ "resuming" → t.ws = some .open →
        t.lastHeartbeatAck = true →
        sendsOf (heartbeat c t true now).2 = [(.heartbeat, J.num (t.seq : Int))])
    ∧ (∀ (t : Shard) (p : Packet) (n : Nat) (now : Nat) (t₀ : String),
        p.op = .event → p.s = some n → p.t = some t₀ →
        t₀ ≠ "READY" → t₀ ≠ "RESUMED" → t₀ ≠ "CLUB_MEMBERS_CHUNK" →
        n > t.seq + 1 → t.ws.isSome = true → t.status ≠ "resuming" →
        (onPacket c t p now).1 = { t with seq := n }
        ∧ Effect.warnMsg ("Non-consecutive sequence (" ++ toString t.seq
            ++ " -> " ++ toString n ++ ")") ∈ (onPacket c t p now).2) := by
  refine ⟨?_, ?_, ?_⟩
  · rw [runGw_event_seq c s ps hev]
    exact foldl_last_eq_foldl_max s.seq (truthySeqs ps) hchain
  · intro t now hst hws hack
    unfold heartbeat
    rw [if_neg hst, if_neg (by simp [hack])]
    simp [sendWS, hws, sendsOf]
  · intro t p n now t₀ hop hs ht h₁ h₂ h₃ hgt hwss hst
    have hn : n ≠ 0 := by omega
    have hwarn : n > t.seq + 1 ∧ t.ws.isSome = true ∧ t.status ≠ "resuming" := ⟨hgt, hwss, hst⟩
    unfold onPacket
    simp only [hop, hs, ht, if_pos hn, if_pos hwarn]
    unfold wsEvent
    simp only [ht]
    constructor
    · dsimp only
      split_ifs <;> rfl
    · dsimp only
      split_ifs <;> simp [h₁, h₂, h₃]

/-- A ready mid-session shard about to receive dispatch packets. -/
def seqShard : Shard :=
  { newShard cfg0 0 with
      ws := some .open
      status := "ready"
      sessionID := some "abc"
      heartbeatTimer := some 41250 }

/-- A server sending a regressing sequence: 5 then 3. -/
def decreasingPackets : List Packet :=
  [{ op := .event, s := some 5, t := some "E5" },
   { op := .event, s := some 3, t := some "E3" }]

/-- C8 counterexample: after receiving `s = 5` then `s = 3`, the stored
sequence is 3 — the last value, not the maximum 5 — and the next
HEARTBEAT sends 3; so neither "monotonically non-decreasing" nor "the
value sent on each HEARTBEAT equals the maximum of all previously
received s fields" holds for every sequence of received packets. -/
theorem sequence_counterexample :
    (runGw cfg0 seqShard (decreasingPackets.map (fun p => GwInput.packet p 0))).1.seq = 3
    ∧ (truthySeqs decreasingPackets).foldl max seqShard.seq = 5
    ∧ sendsOf (heartbeat cfg0
        (runGw cfg0 seqShard (decreasingPackets.map (fun p => GwInput.packet p 0))).1 true 9).2
        = [(.heartbeat, J.num 3)]
    ∧ (3 : Nat) ≠ 5 :=
  ⟨rfl, rfl, rfl, by decide⟩

/-- A server sending a non-decreasing sequence: 5 then 7. -/
def increasingPackets : List Packet :=
  [{ op := .event, s := some 5, t := some "E5" },
   { op := .event, s := some 7, t := some "E7" }]

/-- Witness for `sequence_tracking_spec` on the non-decreasing trace. -/
theorem sequence_tracking_spec_witness :
    (runGw cfg0 seqShard (increasingPackets.map (fun p => GwInput.packet p 0))).1.seq
      = (truthySeqs increasingPackets).foldl max seqShard.seq :=
  (sequence_tracking_spec cfg0 seqShard increasingPackets (by decide)
    (by
      show List.Chain' (· ≤ ·) [0, 5, 7]
      rw [List.chain'_cons, List.chain'_cons]
      exact ⟨by norm_num, by norm_num, List.chain'_singleton 7⟩)).1

end Kiera
